import Mathlib

/-!
Verification of the `analyze_sales_call` endpoint of the sales-call
analysis backend (`src/main.py`).

The endpoint is modelled as a pure function over an `Env` describing the
behaviour of the remote services (object storage, speech-to-text,
text generation, database) and the wall clock.  The function returns the
HTTP status, the JSON body (as an association list of string fields), and
a trace of the effects performed (temp-file write/remove, remote calls),
mirroring the Python control flow statement by statement.
-/

/-- A Python exception as observed by the handler: `str(e)` together with
`traceback.format_exc()`. -/
structure PyExc where
  msg : String
  tb : String
deriving DecidableEq, Repr

/-- A chat message sent to the text-generation service
(`{"role": ..., "content": ...}`). -/
structure ChatMessage where
  role : String
  content : String
deriving DecidableEq, Repr

/-- One candidate completion returned by the generation call
(`response.choices[i]`). -/
structure Choice where
  message : ChatMessage
deriving DecidableEq, Repr

/-- The record inserted into the `sales_calls` table. -/
structure CallRecord where
  transcription : String
  analysis : String
  created_at : String
deriving DecidableEq, Repr

/-- The multipart upload received by the endpoint: FastAPI's
`UploadFile.filename` is optional; `content` is the byte stream. -/
structure UploadFile where
  filename : Option String
  content : List Nat
deriving DecidableEq, Repr

/-- Effects performed by the handler, in program order. -/
inductive Event where
  | tempWrite : Event
  | tempRemove : Event
  | storageUpload : String → List Nat → Event
  | transcribeCall : List Nat → Event
  | chatComplete : List ChatMessage → Event
  | dbInsert : CallRecord → Event
deriving DecidableEq, Repr

/-- The environment: behaviour of the remote services and the clock.
`timestamp` is `datetime.now().strftime("%Y%m%d_%H%M%S")`; `nowIso` is
`datetime.now().isoformat()`.  `attributeError` is the exception the
Python runtime raises when `.endswith` is called on `None`;
`indexError` the one raised by `choices[0]` on an empty list. -/
structure Env where
  timestamp : String
  nowIso : String
  storageUpload : String → List Nat → Except PyExc Unit
  transcribe : List Nat → Except PyExc String
  chatComplete : List ChatMessage → Except PyExc (List Choice)
  dbInsert : CallRecord → Except PyExc Unit
  attributeError : PyExc
  indexError : PyExc

/-- Index of the last occurrence of `c` in `l` (Python `str.rfind`,
with `none` for the `-1` case). -/
def lastIdxOf (c : Char) : List Char → Option Nat
  | [] => none
  | a :: as =>
    match lastIdxOf c as with
    | some i => some (i + 1)
    | none => if a = c then some 0 else none

/-- `os.path.splitext(p)[1]` (posix): the extension starts at the last
dot, provided that dot lies after the last path separator and the base
name is not made of leading dots only. -/
def splitextExt (p : String) : String :=
  let l := p.data
  match lastIdxOf '.' l with
  | none => ""
  | some d =>
    let s := match lastIdxOf '/' l with
      | none => 0
      | some i => i + 1
    if s ≤ d then
      if ((l.drop s).take (d - s)).any (fun ch => ch != '.') then
        String.mk (l.drop d)
      else ""
    else ""

/-- Python `str.endswith` for a single suffix. -/
def endswith (s suffix : String) : Bool :=
  suffix.data.isSuffixOf s.data

/-- `file.filename.endswith(('.m4a', '.mp3', '.wav', '.ogg'))`. -/
def endswithAny (fname : String) : Bool :=
  endswith fname ".m4a" || endswith fname ".mp3" ||
    endswith fname ".wav" || endswith fname ".ogg"

/-- The 400 detail string for a rejected extension. -/
def invalidFormatMsg : String :=
  "Invalid file format. Please upload an audio file (m4a, mp3, wav, or ogg)."

/-- `file_name = f"audio_{timestamp}{file_extension}"`. -/
def file_name_of (timestamp fname : String) : String :=
  "audio_" ++ timestamp ++ splitextExt fname

/-- `storage_path = f"audio-files/{file_name}"`. -/
def storage_path_of (timestamp fname : String) : String :=
  "audio-files/" ++ file_name_of timestamp fname

/-- The fixed text of the feedback prompt before the transcript
(everything in the f-string up to and including the opening triple-quote
marker and its newline). -/
def promptPrefix : String :=
  "\nYou\x27re a supportive and encouraging sales coach.\n\nPlease analyze the following sales call and provide friendly, constructive feedback directly to the salesperson. Focus on what they did well, areas they can improve, and give specific, practical tips to help them boost their sales performance.\n\nYour response should be:\n- Empathetic and motivating\n- Easy to understand\n- Actionable and not too formal\n\nTranscript:\n\"\"\"\n"

/-- The fixed text of the feedback prompt after the transcript (the
closing triple-quote marker). -/
def promptSuffix : String :=
  "\n\"\"\"\n"

/-- The user-message prompt built from the transcript (the f-string at
lines 104-118 of `src/main.py`). -/
def promptFor (transcription_text : String) : String :=
  promptPrefix ++ transcription_text ++ promptSuffix

/-- The fixed system message content. -/
def systemContent : String :=
  "You are a professional sales coach who gives supportive feedback."

/-- The two-message list sent to the generation call. -/
def messages_of (transcription_text : String) : List ChatMessage :=
  [⟨"system", systemContent⟩, ⟨"user", promptFor transcription_text⟩]

/-- The body FastAPI renders for a raised `HTTPException`. -/
def detailBody (msg : String) : List (String × String) :=
  [("detail", msg)]

/-- Detail of the 500 raised when the storage upload fails: the outer
f-string wraps the inner `error_msg`. -/
def uploadFailDetail (e : PyExc) : String :=
  "Failed to upload recording to storage: " ++
    ("Failed to upload to Supabase Storage: " ++ e.msg ++ "\n" ++ e.tb)

/-- Detail of the 500 raised by the generic `except Exception` handler. -/
def unexpectedDetail (e : PyExc) : String :=
  "Unexpected error during processing: " ++ e.msg ++ "\n" ++ e.tb

/-- The outcome of a request: HTTP status, JSON body fields, and the
trace of effects performed. -/
structure Result where
  status : Nat
  body : List (String × String)
  trace : List Event
deriving DecidableEq, Repr

/-- Whether the temp file exists after the given effects have run
(created by `tempWrite`, removed by `tempRemove`). -/
def tempExistsAfter (tr : List Event) : Bool :=
  tr.foldl
    (fun b e =>
      match e with
      | Event.tempWrite => true
      | Event.tempRemove => false
      | _ => b)
    false

/-- The `finally` block: `if os.path.exists(temp_file_path): os.remove(...)`
(removal modelled as effective). -/
def cleanupTrace (tr : List Event) : List Event :=
  if tempExistsAfter tr then tr ++ [Event.tempRemove] else tr

/-- The `try` body of `analyze_sales_call`, returning
(status, body, effects so far).  Exceptions escaping the body are already
translated by the `except` clauses: an `HTTPException` is re-raised as is,
anything else becomes a 500 with `unexpectedDetail`. -/
def analyze_sales_call_try (env : Env) (file : UploadFile) :
    Nat × List (String × String) × List Event :=
  match file.filename with
  | none =>
    -- `None.endswith` raises AttributeError, caught by the generic handler
    (500, detailBody (unexpectedDetail env.attributeError), [])
  | some fname =>
    if endswithAny fname then
      let tr1 : List Event := [Event.tempWrite]
      let storage_path := storage_path_of env.timestamp fname
      let tr2 := tr1 ++ [Event.storageUpload storage_path file.content]
      match env.storageUpload storage_path file.content with
      | Except.error e => (500, detailBody (uploadFailDetail e), tr2)
      | Except.ok _ =>
        let tr3 := tr2 ++ [Event.transcribeCall file.content]
        match env.transcribe file.content with
        | Except.error e => (500, detailBody (unexpectedDetail e), tr3)
        | Except.ok transcription_text =>
          let messages := messages_of transcription_text
          let tr4 := tr3 ++ [Event.chatComplete messages]
          match env.chatComplete messages with
          | Except.error e => (500, detailBody (unexpectedDetail e), tr4)
          | Except.ok choices =>
            match choices with
            | [] =>
              -- `response.choices[0]` raises IndexError
              (500, detailBody (unexpectedDetail env.indexError), tr4)
            | c0 :: _ =>
              let analysis := c0.message.content
              let data : CallRecord := ⟨transcription_text, analysis, env.nowIso⟩
              let tr5 := tr4 ++ [Event.dbInsert data]
              match env.dbInsert data with
              | Except.error e => (500, detailBody (unexpectedDetail e), tr5)
              | Except.ok _ =>
                (200, [("transcription", transcription_text), ("analysis", analysis)], tr5)
    else
      (400, detailBody invalidFormatMsg, [])

/-- The full handler: the `try` body followed by the `finally` cleanup. -/
def analyze_sales_call (env : Env) (file : UploadFile) : Result :=
  { status := (analyze_sales_call_try env file).1,
    body := (analyze_sales_call_try env file).2.1,
    trace := cleanupTrace (analyze_sales_call_try env file).2.2 }

/-- A sample environment in which every remote call succeeds. -/
def sampleEnv : Env where
  timestamp := "20240101_120000"
  nowIso := "2024-01-01T12:00:00"
  storageUpload := fun _ _ => Except.ok ()
  transcribe := fun _ => Except.ok "Hi, interested in the product"
  chatComplete := fun _ =>
    Except.ok [⟨⟨"assistant", "Great opening! Try asking more discovery questions."⟩⟩]
  dbInsert := fun _ => Except.ok ()
  attributeError := ⟨"\x27NoneType\x27 object has no attribute \x27endswith\x27", "Traceback"⟩
  indexError := ⟨"list index out of range", "Traceback"⟩

/-! ## Helper lemmas about the request paths -/

theorem tempExistsAfter_cleanupTrace (tr : List Event) :
    tempExistsAfter (cleanupTrace tr) = false := by
  unfold cleanupTrace
  cases h : tempExistsAfter tr with
  | true => simp [tempExistsAfter, List.foldl_append]
  | false => simp [h]

theorem cleanupTrace_append (tr : List Event) :
    ∃ t2, cleanupTrace tr = tr ++ t2 := by
  unfold cleanupTrace
  cases h : tempExistsAfter tr with
  | true => exact ⟨[Event.tempRemove], by simp⟩
  | false => exact ⟨[], by simp⟩

theorem run_validation_fail (env : Env) (fname : String) (content : List Nat)
    (hv : endswithAny fname = false) :
    analyze_sales_call env ⟨some fname, content⟩ =
      ⟨400, detailBody invalidFormatMsg, []⟩ := by
  simp [analyze_sales_call, analyze_sales_call_try, hv, cleanupTrace, tempExistsAfter]

theorem run_storage_fail (env : Env) (fname : String) (content : List Nat) (e : PyExc)
    (hv : endswithAny fname = true)
    (hs : env.storageUpload (storage_path_of env.timestamp fname) content = Except.error e) :
    analyze_sales_call env ⟨some fname, content⟩ =
      ⟨500, detailBody (uploadFailDetail e),
        [Event.tempWrite,
         Event.storageUpload (storage_path_of env.timestamp fname) content,
         Event.tempRemove]⟩ := by
  simp [analyze_sales_call, analyze_sales_call_try, hv, hs, cleanupTrace, tempExistsAfter]

theorem run_transcribe_fail (env : Env) (fname : String) (content : List Nat) (e : PyExc)
    (hv : endswithAny fname = true)
    (hs : env.storageUpload (storage_path_of env.timestamp fname) content = Except.ok ())
    (ht : env.transcribe content = Except.error e) :
    analyze_sales_call env ⟨some fname, content⟩ =
      ⟨500, detailBody (unexpectedDetail e),
        [Event.tempWrite,
         Event.storageUpload (storage_path_of env.timestamp fname) content,
         Event.transcribeCall content,
         Event.tempRemove]⟩ := by
  simp [analyze_sales_call, analyze_sales_call_try, hv, hs, ht, cleanupTrace, tempExistsAfter]

theorem run_generation_fail (env : Env) (fname : String) (content : List Nat)
    (T : String) (e : PyExc)
    (hv : endswithAny fname = true)
    (hs : env.storageUpload (storage_path_of env.timestamp fname) content = Except.ok ())
    (ht : env.transcribe content = Except.ok T)
    (hg : env.chatComplete (messages_of T) = Except.error e) :
    analyze_sales_call env ⟨some fname, content⟩ =
      ⟨500, detailBody (unexpectedDetail e),
        [Event.tempWrite,
         Event.storageUpload (storage_path_of env.timestamp fname) content,
         Event.transcribeCall content,
         Event.chatComplete (messages_of T),
         Event.tempRemove]⟩ := by
  simp [analyze_sales_call, analyze_sales_call_try, hv, hs, ht, hg, cleanupTrace, tempExistsAfter]

theorem run_db_fail (env : Env) (fname : String) (content : List Nat)
    (T : String) (c0 : Choice) (rest : List Choice) (e : PyExc)
    (hv : endswithAny fname = true)
    (hs : env.storageUpload (storage_path_of env.timestamp fname) content = Except.ok ())
    (ht : env.transcribe content = Except.ok T)
    (hg : env.chatComplete (messages_of T) = Except.ok (c0 :: rest))
    (hd : env.dbInsert ⟨T, c0.message.content, env.nowIso⟩ = Except.error e) :
    analyze_sales_call env ⟨some fname, content⟩ =
      ⟨500, detailBody (unexpectedDetail e),
        [Event.tempWrite,
         Event.storageUpload (storage_path_of env.timestamp fname) content,
         Event.transcribeCall content,
         Event.chatComplete (messages_of T),
         Event.dbInsert ⟨T, c0.message.content, env.nowIso⟩,
         Event.tempRemove]⟩ := by
  simp [analyze_sales_call, analyze_sales_call_try, hv, hs, ht, hg, hd,
    cleanupTrace, tempExistsAfter]

theorem run_success (env : Env) (fname : String) (content : List Nat)
    (T : String) (c0 : Choice) (rest : List Choice)
    (hv : endswithAny fname = true)
    (hs : env.storageUpload (storage_path_of env.timestamp fname) content = Except.ok ())
    (ht : env.transcribe content = Except.ok T)
    (hg : env.chatComplete (messages_of T) = Except.ok (c0 :: rest))
    (hd : env.dbInsert ⟨T, c0.message.content, env.nowIso⟩ = Except.ok ()) :
    analyze_sales_call env ⟨some fname, content⟩ =
      ⟨200, [("transcription", T), ("analysis", c0.message.content)],
        [Event.tempWrite,
         Event.storageUpload (storage_path_of env.timestamp fname) content,
         Event.transcribeCall content,
         Event.chatComplete (messages_of T),
         Event.dbInsert ⟨T, c0.message.content, env.nowIso⟩,
         Event.tempRemove]⟩ := by
  simp [analyze_sales_call, analyze_sales_call_try, hv, hs, ht, hg, hd,
    cleanupTrace, tempExistsAfter]

theorem run_index_fail (env : Env) (fname : String) (content : List Nat) (T : String)
    (hv : endswithAny fname = true)
    (hs : env.storageUpload (storage_path_of env.timestamp fname) content = Except.ok ())
    (ht : env.transcribe content = Except.ok T)
    (hg : env.chatComplete (messages_of T) = Except.ok []) :
    analyze_sales_call env ⟨some fname, content⟩ =
      ⟨500, detailBody (unexpectedDetail env.indexError),
        [Event.tempWrite,
         Event.storageUpload (storage_path_of env.timestamp fname) content,
         Event.transcribeCall content,
         Event.chatComplete (messages_of T),
         Event.tempRemove]⟩ := by
  simp [analyze_sales_call, analyze_sales_call_try, hv, hs, ht, hg,
    cleanupTrace, tempExistsAfter]

theorem trace_shape (env : Env) (fname : String) (content : List Nat)
    (hv : endswithAny fname = true) :
    ∃ rest, (analyze_sales_call env ⟨some fname, content⟩).trace =
      Event.tempWrite ::
        Event.storageUpload (storage_path_of env.timestamp fname) content :: rest := by
  cases hs : env.storageUpload (storage_path_of env.timestamp fname) content with
  | error e =>
    rw [run_storage_fail env fname content e hv hs]
    exact ⟨_, rfl⟩
  | ok u =>
    cases u
    cases ht : env.transcribe content with
    | error e =>
      rw [run_transcribe_fail env fname content e hv hs ht]
      exact ⟨_, rfl⟩
    | ok T =>
      cases hg : env.chatComplete (messages_of T) with
      | error e =>
        rw [run_generation_fail env fname content T e hv hs ht hg]
        exact ⟨_, rfl⟩
      | ok choices =>
        cases choices with
        | nil =>
          rw [run_index_fail env fname content T hv hs ht hg]
          exact ⟨_, rfl⟩
        | cons c0 cs =>
          cases hd : env.dbInsert ⟨T, c0.message.content, env.nowIso⟩ with
          | error e =>
            rw [run_db_fail env fname content T c0 cs e hv hs ht hg hd]
            exact ⟨_, rfl⟩
          | ok u2 =>
            cases u2
            rw [run_success env fname content T c0 cs hv hs ht hg hd]
            exact ⟨_, rfl⟩

/-- `endswith s suffix` holds exactly when `s` is some prefix followed by
`suffix` (the meaning of Python `str.endswith`). -/
theorem endswith_iff (s suffix : String) :
    endswith s suffix = true ↔ ∃ p, s = p ++ suffix := by
  unfold endswith
  rw [List.isSuffixOf_iff_suffix]
  constructor
  · rintro ⟨t, ht⟩
    refine ⟨⟨t⟩, String.ext ?_⟩
    rw [String.data_append]
    exact ht.symm
  · rintro ⟨p, rfl⟩
    exact ⟨p.data, (String.data_append p suffix).symm⟩

/-! ## Claim theorems -/

/-- C1: an upload whose filename ends with one of `.m4a`, `.mp3`, `.wav`,
`.ogg` (first conjunct: the code's check holds exactly for filenames of
the form prefix-plus-whitelisted-suffix) is accepted and the pipeline
proceeds (temp-file write, then the storage upload); any filename with
any other extension is rejected with HTTP 400, the exact detail string,
and an empty effect trace, so no remote call (storage upload,
transcription, generation, database insert) is invoked before the
rejection. -/
theorem spec_C1 (env : Env) (fname : String) (content : List Nat) :
    (endswithAny fname = true ↔
      ((∃ p, fname = p ++ ".m4a") ∨ (∃ p, fname = p ++ ".mp3") ∨
       (∃ p, fname = p ++ ".wav") ∨ (∃ p, fname = p ++ ".ogg")))
    ∧ (endswithAny fname = true →
      ∃ rest, (analyze_sales_call env ⟨some fname, content⟩).trace =
        Event.tempWrite ::
          Event.storageUpload (storage_path_of env.timestamp fname) content :: rest)
    ∧ (endswithAny fname = false →
      analyze_sales_call env ⟨some fname, content⟩ =
        ⟨400, detailBody invalidFormatMsg, []⟩) := by
  refine ⟨?_, fun hv => trace_shape env fname content hv,
    fun hv => run_validation_fail env fname content hv⟩
  unfold endswithAny
  simp only [Bool.or_eq_true]
  rw [endswith_iff, endswith_iff, endswith_iff, endswith_iff]
  tauto

/-- C1 witness: `call1.m4a` is accepted and the pipeline proceeds;
`call1.txt` is rejected with the 400 response and an empty trace. -/
theorem spec_C1_witness :
    (∃ rest, (analyze_sales_call sampleEnv ⟨some "call1.m4a", [1]⟩).trace =
      Event.tempWrite ::
        Event.storageUpload (storage_path_of sampleEnv.timestamp "call1.m4a") [1] :: rest)
    ∧ analyze_sales_call sampleEnv ⟨some "call1.txt", [1]⟩ =
        ⟨400, detailBody invalidFormatMsg, []⟩ :=
  ⟨(spec_C1 sampleEnv "call1.m4a" [1]).2.1 (by decide),
   (spec_C1 sampleEnv "call1.txt" [1]).2.2 (by decide)⟩

/-- C2: when all remote calls succeed, the endpoint returns HTTP 200 with
a payload consisting of exactly the keys `transcription` (the text the
transcription call returned) and `analysis` (the text content of the
FIRST candidate completion `c0`).  The list `rest` of further candidates
is universally quantified and absent from the conclusion: other
candidates are never inspected or merged. -/
theorem spec_C2 (env : Env) (fname : String) (content : List Nat)
    (T : String) (c0 : Choice) (rest : List Choice)
    (hv : endswithAny fname = true)
    (hs : env.storageUpload (storage_path_of env.timestamp fname) content = Except.ok ())
    (ht : env.transcribe content = Except.ok T)
    (hg : env.chatComplete (messages_of T) = Except.ok (c0 :: rest))
    (hd : env.dbInsert ⟨T, c0.message.content, env.nowIso⟩ = Except.ok ()) :
    (analyze_sales_call env ⟨some fname, content⟩).status = 200
    ∧ (analyze_sales_call env ⟨some fname, content⟩).body =
        [("transcription", T), ("analysis", c0.message.content)] := by
  rw [run_success env fname content T c0 rest hv hs ht hg hd]
  exact ⟨rfl, rfl⟩

/-- C2 witness: the end-to-end scenario with every remote call
succeeding at `sampleEnv`, including a second candidate that is
ignored. -/
theorem spec_C2_witness :
    (analyze_sales_call sampleEnv ⟨some "call1.m4a", [1]⟩).status = 200
    ∧ (analyze_sales_call sampleEnv ⟨some "call1.m4a", [1]⟩).body =
        [("transcription", "Hi, interested in the product"),
         ("analysis", "Great opening! Try asking more discovery questions.")] :=
  spec_C2 sampleEnv "call1.m4a" [1] "Hi, interested in the product"
    ⟨⟨"assistant", "Great opening! Try asking more discovery questions."⟩⟩ []
    (by decide) rfl rfl rfl rfl

/-- The prompt text before the opening triple-quote marker. -/
def promptBeforeMarker : String :=
  "\nYou\x27re a supportive and encouraging sales coach.\n\nPlease analyze the following sales call and provide friendly, constructive feedback directly to the salesperson. Focus on what they did well, areas they can improve, and give specific, practical tips to help them boost their sales performance.\n\nYour response should be:\n- Empathetic and motivating\n- Easy to understand\n- Actionable and not too formal\n\nTranscript:\n"

set_option maxRecDepth 16384 in
/-- C3: whenever transcription succeeds with text `T`, the generation
call is performed with exactly the fixed system message (the sales-coach
persona) and the fixed user-message template, and the user message
contains `T` verbatim between the triple-quote delimiting markers:
the prompt decomposes as some fixed text, the opening marker, `T`, the
closing marker, and some fixed text. -/
theorem spec_C3 (env : Env) (fname : String) (content : List Nat) (T : String)
    (hv : endswithAny fname = true)
    (hs : env.storageUpload (storage_path_of env.timestamp fname) content = Except.ok ())
    (ht : env.transcribe content = Except.ok T) :
    Event.chatComplete [⟨"system", systemContent⟩, ⟨"user", promptFor T⟩] ∈
        (analyze_sales_call env ⟨some fname, content⟩).trace
    ∧ ∃ pre post, promptFor T = (pre ++ "\"\"\"\n") ++ T ++ ("\n\"\"\"" ++ post) := by
  constructor
  · cases hg : env.chatComplete (messages_of T) with
    | error e =>
      rw [run_generation_fail env fname content T e hv hs ht hg]
      simp [messages_of]
    | ok choices =>
      cases choices with
      | nil =>
        rw [run_index_fail env fname content T hv hs ht hg]
        simp [messages_of]
      | cons c0 cs =>
        cases hd : env.dbInsert ⟨T, c0.message.content, env.nowIso⟩ with
        | error e =>
          rw [run_db_fail env fname content T c0 cs e hv hs ht hg hd]
          simp [messages_of]
        | ok u =>
          cases u
          rw [run_success env fname content T c0 cs hv hs ht hg hd]
          simp [messages_of]
  · refine ⟨promptBeforeMarker, "\n", ?_⟩
    have h1 : promptBeforeMarker ++ "\"\"\"\n" = promptPrefix := by decide
    have h2 : (("\n\"\"\"" : String) ++ "\n") = promptSuffix := by decide
    rw [h1, h2]
    rfl

/-- C3 witness: the concrete transcript at `sampleEnv` is embedded
verbatim in the prompt actually sent to the generation call. -/
theorem spec_C3_witness :
    Event.chatComplete
        [⟨"system", systemContent⟩,
         ⟨"user", promptFor "Hi, interested in the product"⟩] ∈
      (analyze_sales_call sampleEnv ⟨some "call1.m4a", [1]⟩).trace
    ∧ ∃ pre post, promptFor "Hi, interested in the product" =
        (pre ++ "\"\"\"\n") ++ "Hi, interested in the product" ++ ("\n\"\"\"" ++ post) :=
  spec_C3 sampleEnv "call1.m4a" [1] "Hi, interested in the product" (by decide) rfl rfl

/-- C4: for every request, whatever its outcome, the temporary file is
absent from local storage after the request completes: the `finally`
block removes it whenever it exists, so replaying the full effect trace
always ends with the temp file not existing. -/
theorem spec_C4 (env : Env) (file : UploadFile) :
    tempExistsAfter (analyze_sales_call env file).trace = false :=
  tempExistsAfter_cleanupTrace (analyze_sales_call_try env file).2.2

/-- C5: if the transcription call fails, the endpoint responds 500, the
response payload carries no `analysis` key, and no generation call
appears in the effect trace. -/
theorem spec_C5 (env : Env) (fname : String) (content : List Nat) (e : PyExc)
    (hv : endswithAny fname = true)
    (hs : env.storageUpload (storage_path_of env.timestamp fname) content = Except.ok ())
    (ht : env.transcribe content = Except.error e) :
    (analyze_sales_call env ⟨some fname, content⟩).status = 500
    ∧ "analysis" ∉ ((analyze_sales_call env ⟨some fname, content⟩).body.map Prod.fst)
    ∧ ∀ msgs, Event.chatComplete msgs ∉ (analyze_sales_call env ⟨some fname, content⟩).trace := by
  rw [run_transcribe_fail env fname content e hv hs ht]
  refine ⟨rfl, ?_, ?_⟩
  · simp [detailBody]
  · intro msgs
    simp

/-- C5 witness: a concrete transcription failure yields a 500 with no
`analysis` key and no generation call. -/
theorem spec_C5_witness :
    (analyze_sales_call { sampleEnv with transcribe := fun _ => Except.error ⟨"boom", "tb"⟩ }
        ⟨some "call1.m4a", [1]⟩).status = 500
    ∧ "analysis" ∉ ((analyze_sales_call
        { sampleEnv with transcribe := fun _ => Except.error ⟨"boom", "tb"⟩ }
        ⟨some "call1.m4a", [1]⟩).body.map Prod.fst)
    ∧ ∀ msgs, Event.chatComplete msgs ∉ (analyze_sales_call
        { sampleEnv with transcribe := fun _ => Except.error ⟨"boom", "tb"⟩ }
        ⟨some "call1.m4a", [1]⟩).trace :=
  spec_C5 { sampleEnv with transcribe := fun _ => Except.error ⟨"boom", "tb"⟩ }
    "call1.m4a" [1] ⟨"boom", "tb"⟩ (by decide) rfl rfl

/-- C6: if transcription succeeds and the generation call then fails,
the response is a 500 whose body is built from the generation exception
alone (`unexpectedDetail e`), so it is the same for any two transcripts
`T1`, `T2`: the raw transcript does not flow into the response body on
this path (non-interference reading of "the body does not contain the
transcript"). -/
theorem spec_C6 (env : Env) (fname : String) (content : List Nat)
    (T1 T2 : String) (e : PyExc)
    (hv : endswithAny fname = true)
    (hs : env.storageUpload (storage_path_of env.timestamp fname) content = Except.ok ())
    (hg : ∀ msgs, env.chatComplete msgs = Except.error e) :
    (analyze_sales_call { env with transcribe := fun _ => Except.ok T1 }
        ⟨some fname, content⟩).status = 500
    ∧ (analyze_sales_call { env with transcribe := fun _ => Except.ok T1 }
        ⟨some fname, content⟩).body = detailBody (unexpectedDetail e)
    ∧ (analyze_sales_call { env with transcribe := fun _ => Except.ok T1 }
        ⟨some fname, content⟩).body =
      (analyze_sales_call { env with transcribe := fun _ => Except.ok T2 }
        ⟨some fname, content⟩).body := by
  have h1 := run_generation_fail { env with transcribe := fun _ => Except.ok T1 }
    fname content T1 e hv hs rfl (hg _)
  have h2 := run_generation_fail { env with transcribe := fun _ => Except.ok T2 }
    fname content T2 e hv hs rfl (hg _)
  rw [h1, h2]
  exact ⟨rfl, rfl, rfl⟩

/-- C6 witness: at concrete distinct transcripts, a generation failure
yields the same 500 body, free of either transcript. -/
theorem spec_C6_witness :
    (analyze_sales_call
        { { sampleEnv with chatComplete := fun _ => Except.error ⟨"gen boom", "tb"⟩ } with
          transcribe := fun _ => Except.ok "secret transcript A" }
        ⟨some "call1.m4a", [1]⟩).status = 500
    ∧ (analyze_sales_call
        { { sampleEnv with chatComplete := fun _ => Except.error ⟨"gen boom", "tb"⟩ } with
          transcribe := fun _ => Except.ok "secret transcript A" }
        ⟨some "call1.m4a", [1]⟩).body = detailBody (unexpectedDetail ⟨"gen boom", "tb"⟩)
    ∧ (analyze_sales_call
        { { sampleEnv with chatComplete := fun _ => Except.error ⟨"gen boom", "tb"⟩ } with
          transcribe := fun _ => Except.ok "secret transcript A" }
        ⟨some "call1.m4a", [1]⟩).body =
      (analyze_sales_call
        { { sampleEnv with chatComplete := fun _ => Except.error ⟨"gen boom", "tb"⟩ } with
          transcribe := fun _ => Except.ok "other transcript B" }
        ⟨some "call1.m4a", [1]⟩).body :=
  spec_C6 { sampleEnv with chatComplete := fun _ => Except.error ⟨"gen boom", "tb"⟩ }
    "call1.m4a" [1] "secret transcript A" "other transcript B" ⟨"gen boom", "tb"⟩
    (by decide) rfl (fun _ => rfl)

/-- C7: if the storage upload fails, the endpoint responds 500 and the
remaining pipeline steps are all skipped: the trace holds no
transcription call, no generation call, and no database insert. -/
theorem spec_C7 (env : Env) (fname : String) (content : List Nat) (e : PyExc)
    (hv : endswithAny fname = true)
    (hs : env.storageUpload (storage_path_of env.timestamp fname) content = Except.error e) :
    (analyze_sales_call env ⟨some fname, content⟩).status = 500
    ∧ (∀ b, Event.transcribeCall b ∉ (analyze_sales_call env ⟨some fname, content⟩).trace)
    ∧ (∀ m, Event.chatComplete m ∉ (analyze_sales_call env ⟨some fname, content⟩).trace)
    ∧ (∀ r, Event.dbInsert r ∉ (analyze_sales_call env ⟨some fname, content⟩).trace) := by
  rw [run_storage_fail env fname content e hv hs]
  refine ⟨rfl, ?_, ?_, ?_⟩ <;> intro x <;> simp

/-- C7 witness: a concrete storage failure responds 500 and skips every
later pipeline step. -/
theorem spec_C7_witness :
    (analyze_sales_call { sampleEnv with storageUpload := fun _ _ => Except.error ⟨"st", "tb"⟩ }
        ⟨some "call1.m4a", [1]⟩).status = 500
    ∧ (∀ b, Event.transcribeCall b ∉ (analyze_sales_call
        { sampleEnv with storageUpload := fun _ _ => Except.error ⟨"st", "tb"⟩ }
        ⟨some "call1.m4a", [1]⟩).trace)
    ∧ (∀ m, Event.chatComplete m ∉ (analyze_sales_call
        { sampleEnv with storageUpload := fun _ _ => Except.error ⟨"st", "tb"⟩ }
        ⟨some "call1.m4a", [1]⟩).trace)
    ∧ (∀ r, Event.dbInsert r ∉ (analyze_sales_call
        { sampleEnv with storageUpload := fun _ _ => Except.error ⟨"st", "tb"⟩ }
        ⟨some "call1.m4a", [1]⟩).trace) :=
  spec_C7 { sampleEnv with storageUpload := fun _ _ => Except.error ⟨"st", "tb"⟩ }
    "call1.m4a" [1] ⟨"st", "tb"⟩ (by decide) rfl

/-- C8 counterexample: the claim says the storage key has exactly the
form `audio_<timestamp><extension>`, but the key actually passed to the
storage upload carries the constant folder prefix `audio-files/`: for
the accepted upload `call1.mp3` at `sampleEnv` the (unique) upload event
in the trace uses the key `audio-files/audio_20240101_120000.mp3`, which
differs from `audio_` ++ timestamp ++ extension. -/
theorem spec_C8_counterexample :
    (analyze_sales_call sampleEnv ⟨some "call1.mp3", [7]⟩).trace =
      [Event.tempWrite,
       Event.storageUpload "audio-files/audio_20240101_120000.mp3" [7],
       Event.transcribeCall [7],
       Event.chatComplete (messages_of "Hi, interested in the product"),
       Event.dbInsert ⟨"Hi, interested in the product",
         "Great opening! Try asking more discovery questions.", "2024-01-01T12:00:00"⟩,
       Event.tempRemove]
    ∧ ("audio-files/audio_20240101_120000.mp3" : String) ≠
        "audio_" ++ "20240101_120000" ++ splitextExt "call1.mp3" := by
  constructor
  · rfl
  · decide

/-- C8 (amended): for every accepted upload, the key under which the raw
audio bytes are stored is exactly the constant folder prefix
`audio-files/` followed by `audio_`, the second-resolution timestamp, and
the original filename's extension (as computed by `os.path.splitext`) —
still with no uniqueness component beyond the timestamp. -/
theorem spec_C8 (env : Env) (fname : String) (content : List Nat)
    (hv : endswithAny fname = true) :
    ∃ rest, (analyze_sales_call env ⟨some fname, content⟩).trace =
      Event.tempWrite ::
        Event.storageUpload
          ("audio-files/" ++ ("audio_" ++ env.timestamp ++ splitextExt fname)) content ::
          rest :=
  trace_shape env fname content hv

/-- C8 witness: the amended key shape at a concrete accepted upload. -/
theorem spec_C8_witness :
    ∃ rest, (analyze_sales_call sampleEnv ⟨some "call1.mp3", [7]⟩).trace =
      Event.tempWrite ::
        Event.storageUpload
          ("audio-files/" ++ ("audio_" ++ sampleEnv.timestamp ++ splitextExt "call1.mp3")) [7] ::
          rest :=
  spec_C8 sampleEnv "call1.mp3" [7] (by decide)

/-- C9: if transcription and generation succeed but the database insert
fails, the request fails as a whole: HTTP 500 with the catch-all detail
body, and the already-computed transcription/analysis pair is not in the
payload (neither key is present). -/
theorem spec_C9 (env : Env) (fname : String) (content : List Nat)
    (T : String) (c0 : Choice) (rest : List Choice) (e : PyExc)
    (hv : endswithAny fname = true)
    (hs : env.storageUpload (storage_path_of env.timestamp fname) content = Except.ok ())
    (ht : env.transcribe content = Except.ok T)
    (hg : env.chatComplete (messages_of T) = Except.ok (c0 :: rest))
    (hd : env.dbInsert ⟨T, c0.message.content, env.nowIso⟩ = Except.error e) :
    (analyze_sales_call env ⟨some fname, content⟩).status = 500
    ∧ (analyze_sales_call env ⟨some fname, content⟩).body = detailBody (unexpectedDetail e)
    ∧ "transcription" ∉ ((analyze_sales_call env ⟨some fname, content⟩).body.map Prod.fst)
    ∧ "analysis" ∉ ((analyze_sales_call env ⟨some fname, content⟩).body.map Prod.fst) := by
  rw [run_db_fail env fname content T c0 rest e hv hs ht hg hd]
  refine ⟨rfl, rfl, ?_, ?_⟩ <;> simp [detailBody]

/-- C9 witness: a concrete database-insert failure after successful
transcription and generation yields a 500 without the computed pair. -/
theorem spec_C9_witness :
    (analyze_sales_call { sampleEnv with dbInsert := fun _ => Except.error ⟨"db", "tb"⟩ }
        ⟨some "call1.m4a", [1]⟩).status = 500
    ∧ (analyze_sales_call { sampleEnv with dbInsert := fun _ => Except.error ⟨"db", "tb"⟩ }
        ⟨some "call1.m4a", [1]⟩).body = detailBody (unexpectedDetail ⟨"db", "tb"⟩)
    ∧ "transcription" ∉ ((analyze_sales_call
        { sampleEnv with dbInsert := fun _ => Except.error ⟨"db", "tb"⟩ }
        ⟨some "call1.m4a", [1]⟩).body.map Prod.fst)
    ∧ "analysis" ∉ ((analyze_sales_call
        { sampleEnv with dbInsert := fun _ => Except.error ⟨"db", "tb"⟩ }
        ⟨some "call1.m4a", [1]⟩).body.map Prod.fst) :=
  spec_C9 { sampleEnv with dbInsert := fun _ => Except.error ⟨"db", "tb"⟩ }
    "call1.m4a" [1] "Hi, interested in the product"
    ⟨⟨"assistant", "Great opening! Try asking more discovery questions."⟩⟩ []
    ⟨"db", "tb"⟩ (by decide) rfl rfl rfl rfl

/-- C10: when the upload's filename is absent (`None`), the attribute
dereference in the extension check raises before any validation result,
so the generic catch-all answers 500 (not the 400 validation response),
and the trace is empty: no temp file is written and no remote call is
made. -/
theorem spec_C10 (env : Env) (content : List Nat) :
    analyze_sales_call env ⟨none, content⟩ =
      ⟨500, detailBody (unexpectedDetail env.attributeError), []⟩ :=
  rfl
